import Mathlib

/-!
Shallow embedding of `src/scenejs/geometry/geometryBackend.js` (SceneJS geometry
backend): a GPU-resource cache with LRU eviction, a render dispatcher with a
"currently bound geometry" fast path, and event-bus glue.

Modelling conventions:
* JS numbers that are used as integers (timestamps, buffer handles, counts,
  WebGL enum constants) become `Nat`.
* The mutable backend state (`time`, `canvas`, `geometries`, `currentBoundGeo`)
  becomes an explicit `State` record threaded through every operation.  The
  `geometries` object is an association list `List (String × Option Geo)` in
  insertion order: `geometries[geoId] = null` in the source stores `none`
  without removing the key, exactly as JS property assignment does.
* Device buffers are identified by a handle drawn from a counter `nextBuf`;
  `buffer.destroy()` appends the handle to the `freed` log, so double frees are
  observable.  Outbound notifications (`fireEvent`, `disableVertexAttribArray`,
  `bind`, `drawElements`, `flush`) are appended to the `events` trace.
* Host-environment queries (`document.getElementById(canvasId)`) are a boolean
  oracle `dom : String → Bool` passed to the operations that consult it.
* Thrown JS exceptions become explicit error values (`Err`); a property access
  on `null`/`undefined` is `Err.typeError`.  Mutations performed before a throw
  persist, so fallible operations return the partially mutated state next to
  the error.
-/

namespace SJ

/-- Error values for the exceptions the backend can raise.  `noCanvasActive`
is `NoCanvasActiveException` ("NoActiveSurface" in spec vocabulary),
`nodeConfigExpected` is `NodeConfigExpectedException` (missing `data.primitive`),
`invalidGeometryConfig` is `InvalidGeometryConfigException` (unsupported
primitive string), `allocationFailure` is a rejected device allocation, and
`typeError` is a JS `TypeError` (property access on `null`/`undefined`).
`unknownGeometry` represents the spec's "UnknownGeometry" error kind; the
source never constructs it, and it is included so that statements about that
error kind can be expressed. -/
inductive Err where
  | noCanvasActive
  | nodeConfigExpected
  | invalidGeometryConfig
  | allocationFailure
  | typeError
  | unknownGeometry
deriving DecidableEq, Repr

/-- Canvas reference: an active rendering surface, identified by `canvasId`.
The WebGL `context` object it carries in the source is implicit (its enum
constants are inlined as numerals below). -/
structure Canvas where
  canvasId : String
deriving DecidableEq, Repr

/-- Device buffer created by `new SceneJS._webgl.ArrayBuffer(...)`: `handle` is
the device identity (used to observe destruction), `numItems` and `itemSize`
mirror the constructor arguments.  The usage hint is always `STATIC_DRAW` in
the source and is omitted. -/
structure Buf where
  handle : Nat
  numItems : Nat
  itemSize : Nat
deriving DecidableEq, Repr

/-- Geometry record as built by `createGeometry`.  The source stores
`vertexBuf`, `normalBuf` and `indexBuf` unconditionally on success, so they
are plain fields; `texCoordBuf` is only present when the input had `uv`
data.  `primitive` holds the WebGL enum numeral returned by
`getPrimitiveType`. -/
structure Geo where
  fixed : Bool
  primitive : Nat
  type : String
  geoId : String
  lastUsed : Nat
  canvas : Canvas
  vertexBuf : Buf
  normalBuf : Buf
  indexBuf : Buf
  texCoordBuf : Option Buf
deriving DecidableEq, Repr

/-- Input to `createGeometry` (`data`): the primitive string, the raw arrays
(whose contents are opaque; only `.length` is consumed) and the optional `uv`
array. -/
structure GeoData where
  primitive : String
  positions : List Int
  normals : List Int
  uv : Option (List Int)
  indices : List Int
deriving DecidableEq, Repr

/-- Observable outbound effects of the backend, in program order:
`shaderActivate` is `fireEvent(SHADER_ACTIVATE)`, `geometryExported` is
`fireEvent(GEOMETRY_EXPORTED, geo)`, `disableVertexAttrib i` is
`context.disableVertexAttribArray(i)`, `bindIndexBuffer h` is
`geo.indexBuf.bind()`, `drawElements p n` is
`context.drawElements(p, n, UNSIGNED_SHORT, 0)` and `flush` is
`context.flush()`. -/
inductive Ev where
  | shaderActivate
  | geometryExported (geo : Geo)
  | disableVertexAttrib (i : Nat)
  | bindIndexBuffer (handle : Nat)
  | drawElements (primitive : Nat) (numItems : Nat)
  | flush
deriving DecidableEq, Repr

/-- Backend state: the closure variables `time`, `canvas`, `geometries`,
`currentBoundGeo` of the installed backend, extended with the observation
devices `nextBuf` (fresh device handle counter), `freed` (handles whose
`destroy()` ran, in order, with repetition) and `events` (outbound
notification trace). -/
structure State where
  time : Nat
  canvas : Option Canvas
  geometries : List (String × Option Geo)
  currentBoundGeo : Option String
  nextBuf : Nat
  freed : List Nat
  events : List Ev
deriving DecidableEq, Repr

/-- Reads `geometries[k]` as a JS property access: `none` when the key is
absent (`undefined`), `some none` when the stored value is `null`. -/
def lookupEntry (gs : List (String × Option Geo)) (k : String) : Option (Option Geo) :=
  (gs.find? (fun p => p.1 = k)).map (fun p => p.2)

/-- Reads `geometries[k]` as a geometry record, collapsing `undefined` and
`null` to `none` (both are falsy and both crash on member access). -/
def lookupGeo (gs : List (String × Option Geo)) (k : String) : Option Geo :=
  (lookupEntry gs k).bind id

/-- Writes `geometries[k] = v` preserving JS property-order semantics: an
existing key keeps its position and is overwritten, a new key is appended. -/
def setGeo (gs : List (String × Option Geo)) (k : String) (v : Option Geo) :
    List (String × Option Geo) :=
  if gs.any (fun p => p.1 = k) then
    gs.map (fun p => if p.1 = k then (k, v) else p)
  else
    gs ++ [(k, v)]

/-- Translation of `destroyGeometry(geo)` (source lines 97–117): clears the
bound marker when it names this record, then — only when the owning canvas is
still in the DOM — destroys `vertexBuf`, `normalBuf`, `indexBuf` (the source
guards the index destroy with `if (geo.normalBuf)`; both are always present
on cached records, so the guards are truthy and the destroys run) and the
`texCoordBuf` when present, and finally stores `null` at the record's key. -/
def destroyGeometry (dom : String → Bool) (geo : Geo) (s : State) : State :=
  let s1 := if s.currentBoundGeo = some geo.geoId then
      { s with currentBoundGeo := none }
    else s
  let s2 := if dom geo.canvas.canvasId then
      { s1 with freed := s1.freed ++
          [geo.vertexBuf.handle, geo.normalBuf.handle, geo.indexBuf.handle] ++
          (match geo.texCoordBuf with
            | some b => [b.handle]
            | none => []) }
    else s1
  { s2 with geometries := setGeo s2.geometries geo.geoId none }

/-- Scan loop of the registered evictor (source lines 125–136): walks the
entries in property order with the running minimum `earliest` (initially the
current `time`) and candidate `ev`.  An empty key is skipped by `if (geoId)`;
a `null` entry makes `geo.lastUsed` throw a `TypeError`; a live entry replaces
the candidate exactly when its `lastUsed` is strictly below the running
minimum and its canvas is still in the DOM. -/
def evictScan (dom : String → Bool) :
    List (String × Option Geo) → Nat → Option (String × Geo) →
    Except Err (Option (String × Geo))
  | [], _, ev => .ok ev
  | (k, og) :: rest, earliest, ev =>
    if k = "" then evictScan dom rest earliest ev
    else
      match og with
      | none => .error .typeError
      | some g =>
        if g.lastUsed < earliest ∧ dom g.canvas.canvasId then
          evictScan dom rest g.lastUsed (some (k, g))
        else
          evictScan dom rest earliest ev

/-- Translation of the evictor callback registered with `ctx.memory`
(source lines 123–143): scan for the eligible record with the oldest
`lastUsed`; destroy it and report `true` when found, report `false`
otherwise. -/
def evictorCallback (dom : String → Bool) (s : State) : State × Except Err Bool :=
  match evictScan dom s.geometries s.time none with
  | .error e => (s, .error e)
  | .ok none => (s, .ok false)
  | .ok (some p) => (destroyGeometry dom p.2 s, .ok true)

/-- Modelled from the spec: `createArrayBuffer` wraps the device allocation in
`ctx.memory.allocate` (the memory backend is not under `src/`); per §6 of the
spec the allocation gate either grants the allocation — here: hands out the
next fresh handle — or rejects it, in which case the allocation fails with an
`AllocationFailure` that propagates to the caller. -/
def createArrayBuffer (gate : Nat → Bool) (numItems itemSize : Nat) (s : State) :
    State × Except Err Buf :=
  if gate s.nextBuf then
    ({ s with nextBuf := s.nextBuf + 1 }, .ok ⟨s.nextBuf, numItems, itemSize⟩)
  else
    (s, .error .allocationFailure)

/-- Translation of `getPrimitiveType` (source lines 169–192): maps the seven
supported primitive strings to the WebGL enum numerals (`POINTS = 0`,
`LINES = 1`, `LINE_LOOP = 2`, `LINE_STRIP = 3`, `TRIANGLES = 4`,
`TRIANGLE_STRIP = 5`, `TRIANGLE_FAN = 6`) and throws
`InvalidGeometryConfigException` on anything else. -/
def getPrimitiveType (type : String) : Except Err Nat :=
  match type with
  | "points" => .ok 0
  | "lines" => .ok 1
  | "line-loop" => .ok 2
  | "line-strip" => .ok 3
  | "triangles" => .ok 4
  | "triangle-strip" => .ok 5
  | "triangle-fan" => .ok 6
  | _ => .error .invalidGeometryConfig

/-- Appends the handles of already-allocated buffers to the freed log; this is
the `catch` block of `createGeometry`, which destroys whatever subset of
buffers was allocated before the throw, in the order vertex, normal,
texCoord, index. -/
def freeBufs (bufs : List Buf) (s : State) : State :=
  { s with freed := s.freed ++ bufs.map (fun b => b.handle) }

/-- Optional texcoord-buffer step of `createGeometry` (source lines 246–249):
`if (data.uv) texCoordBuf = createArrayBuffer(...)` — allocates a texcoord
buffer exactly when the input carries a `uv` array, passing any allocation
failure through. -/
def allocTexCoord (gate : Nat → Bool) (uv : Option (List Int)) (s : State) :
    State × Except Err (Option Buf) :=
  match uv with
  | none => (s, .ok none)
  | some l =>
    match createArrayBuffer gate l.length 2 s with
    | (s3, .error e) => (s3, .error e)
    | (s3, .ok b) => (s3, .ok (some b))

/-- Translation of `createGeometry(type, data)` (source lines 213–288):
fails with `NoCanvasActive` when no canvas is active and with
`NodeConfigExpected` when `data.primitive` is falsy; otherwise allocates the
vertex, normal, optional texcoord and index buffers in order (each through
the allocation gate), converts the primitive string (inside the `try`, after
all allocations), and on success stores the new record — overwriting any
record already present at the same key — stamped with the current logical
clock and `fixed = true`.  Any throw inside the `try` releases the buffers
allocated so far and propagates. -/
def createGeometry (gate : Nat → Bool) (type : String)
    (data : GeoData) (s : State) : State × Except Err String :=
  match s.canvas with
  | none => (s, .error .noCanvasActive)
  | some cv =>
    if data.primitive = "" then (s, .error .nodeConfigExpected)
    else
      let geoId := cv.canvasId ++ ":" ++ type
      match createArrayBuffer gate data.positions.length 3 s with
      | (s1, .error e) => (s1, .error e)
      | (s1, .ok vertexBuf) =>
        match createArrayBuffer gate data.normals.length 3 s1 with
        | (s2, .error e) => (freeBufs [vertexBuf] s2, .error e)
        | (s2, .ok normalBuf) =>
          match allocTexCoord gate data.uv s2 with
          | (s3, .error e) => (freeBufs [vertexBuf, normalBuf] s3, .error e)
          | (s3, .ok texCoordBuf) =>
            match createArrayBuffer gate data.indices.length 1 s3 with
            | (s4, .error e) =>
              (freeBufs ([vertexBuf, normalBuf] ++ texCoordBuf.toList) s4, .error e)
            | (s4, .ok indexBuf) =>
              match getPrimitiveType data.primitive with
              | .error e =>
                (freeBufs ([vertexBuf, normalBuf] ++ texCoordBuf.toList ++ [indexBuf]) s4,
                 .error e)
              | .ok prim =>
                let geo : Geo :=
                  { fixed := true
                    primitive := prim
                    type := type
                    geoId := geoId
                    lastUsed := s4.time
                    canvas := cv
                    vertexBuf := vertexBuf
                    normalBuf := normalBuf
                    indexBuf := indexBuf
                    texCoordBuf := texCoordBuf }
                ({ s4 with geometries := setGeo s4.geometries geoId (some geo) },
                 .ok geoId)
  -- The author disabled the auto-generated-type branch (`nextTypeId`) in the
  -- source; it is commented out and therefore not modelled.

/-- Translation of `findGeometry(type)` (source lines 199–205): fails with
`NoCanvasActive` when no canvas is active, otherwise returns the id
`canvasId + ":" + type` when a truthy record is stored there and `null`
otherwise.  Pure: the state is not modified. -/
def findGeometry (type : String) (s : State) : Except Err (Option String) :=
  match s.canvas with
  | none => .error .noCanvasActive
  | some cv =>
    let geoId := cv.canvasId ++ ":" ++ type
    .ok (if (lookupGeo s.geometries geoId).isSome then some geoId else none)

/-- Translation of `drawGeometry(geoId)` (source lines 295–341): fails with
`NoCanvasActive` when no canvas is active; fires `SHADER_ACTIVATE`
unconditionally; then reads the record — when the id is absent or destroyed
the assignment `geo.lastUsed = time` throws a `TypeError`, with the fired
event kept.  A live record gets its `lastUsed` refreshed; when the id differs
from `currentBoundGeo` the eight vertex-attribute slots are disabled, the
record is exported, its index buffer bound and the marker updated; the draw
call and flush are always issued; a non-`fixed` record is destroyed
afterwards and the marker cleared. -/
def drawGeometry (dom : String → Bool) (geoId : String) (s : State) :
    State × Option Err :=
  match s.canvas with
  | none => (s, some .noCanvasActive)
  | some _ =>
    let sA := { s with events := s.events ++ [Ev.shaderActivate] }
    match lookupGeo sA.geometries geoId with
    | none => (sA, some .typeError)
    | some geo0 =>
      let geo := { geo0 with lastUsed := sA.time }
      let sB := { sA with geometries := setGeo sA.geometries geoId (some geo) }
      let sC :=
        if sB.currentBoundGeo ≠ some geoId then
          { sB with
            events := sB.events ++ (List.range 8).map Ev.disableVertexAttrib ++
              [Ev.geometryExported geo, Ev.bindIndexBuffer geo.indexBuf.handle]
            currentBoundGeo := some geoId }
        else sB
      let sD := { sC with events := sC.events ++
          [Ev.drawElements geo.primitive geo.indexBuf.numItems, Ev.flush] }
      if geo.fixed then (sD, none)
      else
        let sE := destroyGeometry dom geo sD
        ({ sE with currentBoundGeo := none }, none)

/-- Handler for `TIME_UPDATED` (source lines 43–47). -/
def handleTimeUpdated (t : Nat) (s : State) : State :=
  { s with time := t }

/-- Handler for `SCENE_ACTIVATED` (source lines 49–54): drops the canvas and
the bound marker. -/
def handleSceneActivated (s : State) : State :=
  { s with canvas := none, currentBoundGeo := none }

/-- Handler for `CANVAS_ACTIVATED` (source lines 56–61): records the new
canvas and drops the bound marker. -/
def handleCanvasActivated (c : Canvas) (s : State) : State :=
  { s with canvas := some c, currentBoundGeo := none }

/-- Handler for `CANVAS_DEACTIVATED` (source lines 63–68). -/
def handleCanvasDeactivated (s : State) : State :=
  { s with canvas := none, currentBoundGeo := none }

/-- Handler for `SHADER_ACTIVATED` (source lines 70–74). -/
def handleShaderActivated (s : State) : State :=
  { s with currentBoundGeo := none }

/-- Handler for `SHADER_DEACTIVATED` (source lines 76–80). -/
def handleShaderDeactivated (s : State) : State :=
  { s with currentBoundGeo := none }

/-- Loop body of the `RESET` handler: `for (var geoId in geometries)
destroyGeometry(geometries[geoId])` iterates the key set (which assignment of
`null` to existing keys does not change) and reads the then-current value;
a `null` value makes `destroyGeometry` throw a `TypeError` at `geo.type` and
abandons the rest of the handler. -/
def resetLoop (dom : String → Bool) : List String → State → State × Option Err
  | [], s => (s, none)
  | k :: rest, s =>
    match lookupGeo s.geometries k with
    | none => (s, some .typeError)
    | some geo => resetLoop dom rest (destroyGeometry dom geo s)

/-- Handler for `RESET` (source lines 82–91): destroys every stored record,
then clears the canvas, the geometry map and the bound marker.  When the loop
throws, the trailing assignments never run and the partially mutated state is
kept. -/
def handleReset (dom : String → Bool) (s : State) : State × Option Err :=
  match resetLoop dom (s.geometries.map (fun p => p.1)) s with
  | (s1, none) =>
    ({ s1 with canvas := none, geometries := [], currentBoundGeo := none }, none)
  | (s1, some e) => (s1, some e)

/-- Number of `GEOMETRY_EXPORTED` notifications in a trace. -/
def countExports (evs : List Ev) : Nat :=
  evs.countP (fun e => match e with
    | Ev.geometryExported _ => true
    | _ => false)

/-- Number of `SHADER_ACTIVATE` notifications in a trace. -/
def countShaderActivates (evs : List Ev) : Nat :=
  evs.countP (fun e => match e with
    | Ev.shaderActivate => true
    | _ => false)

end SJ

deriving instance DecidableEq for Except

namespace SJ

/-! Helper lemmas about the association-list operations. -/

theorem lookupEntry_setGeo_self (gs : List (String × Option Geo)) (k : String)
    (v : Option Geo) : lookupEntry (setGeo gs k v) k = some v := by
  induction gs with
  | nil => simp [setGeo, lookupEntry]
  | cons p gs ih =>
    by_cases hk : p.1 = k
    · simp [setGeo, lookupEntry, hk]
    · by_cases ha : gs.any (fun q => q.1 = k)
      · have ih2 := ih
        simp only [setGeo, ha, if_true] at ih2
        simp only [setGeo, List.any_cons, hk, decide_eq_true_eq, ha]
        simpa [lookupEntry, List.find?, hk] using ih2
      · have ih2 := ih
        simp only [setGeo, ha, if_false] at ih2
        simp only [setGeo, List.any_cons, hk, decide_eq_true_eq, ha]
        simpa [lookupEntry, List.find?, hk] using ih2

theorem lookupGeo_setGeo_self (gs : List (String × Option Geo)) (k : String)
    (g : Geo) : lookupGeo (setGeo gs k (some g)) k = some g := by
  simp [lookupGeo, lookupEntry_setGeo_self]

theorem lookupEntry_map_update_ne (gs : List (String × Option Geo)) (k k2 : String)
    (v : Option Geo) (h : k2 ≠ k) :
    lookupEntry (gs.map (fun p => if p.1 = k then (k, v) else p)) k2 =
      lookupEntry gs k2 := by
  induction gs with
  | nil => rfl
  | cons p gs ih =>
    by_cases hk : p.1 = k
    · have hne : ¬ ((k : String) = k2) := fun hc => h hc.symm
      have hne2 : ¬ (p.1 = k2) := by rw [hk]; exact hne
      simp only [lookupEntry, List.map_cons, hk, if_true, List.find?_cons]
      simp only [decide_eq_false hne, decide_eq_false hne2]
      exact ih
    · simp only [lookupEntry, List.map_cons, hk, if_false, List.find?_cons]
      by_cases h2 : p.1 = k2
      · simp [h2]
      · simp only [decide_eq_false h2]
        exact ih

theorem lookupEntry_append_ne (gs : List (String × Option Geo)) (k k2 : String)
    (v : Option Geo) (h : k2 ≠ k) :
    lookupEntry (gs ++ [(k, v)]) k2 = lookupEntry gs k2 := by
  induction gs with
  | nil =>
    have hne : ¬ ((k : String) = k2) := fun hc => h hc.symm
    simp [lookupEntry, List.find?_cons, hne]
  | cons p gs ih =>
    by_cases h2 : p.1 = k2
    · simp [lookupEntry, List.find?_cons, h2]
    · simp only [lookupEntry, List.cons_append, List.find?_cons, decide_eq_false h2]
      exact ih

theorem lookupEntry_setGeo_ne (gs : List (String × Option Geo)) (k k2 : String)
    (v : Option Geo) (h : k2 ≠ k) :
    lookupEntry (setGeo gs k v) k2 = lookupEntry gs k2 := by
  unfold setGeo
  by_cases ha : gs.any (fun q => q.1 = k)
  · simp only [ha, if_true]
    exact lookupEntry_map_update_ne gs k k2 v h
  · simp only [ha, if_false]
    exact lookupEntry_append_ne gs k k2 v h

theorem lookupGeo_setGeo_ne (gs : List (String × Option Geo)) (k k2 : String)
    (v : Option Geo) (h : k2 ≠ k) :
    lookupGeo (setGeo gs k v) k2 = lookupGeo gs k2 := by
  simp [lookupGeo, lookupEntry_setGeo_ne gs k k2 v h]

theorem any_key_setGeo (gs : List (String × Option Geo)) (k : String)
    (v : Option Geo) : (setGeo gs k v).any (fun p => p.1 = k) = true := by
  unfold setGeo
  by_cases ha : gs.any (fun q => q.1 = k)
  · simp only [ha, if_true]
    obtain ⟨p, hp, hpk⟩ := List.any_eq_true.mp ha
    refine List.any_eq_true.mpr ⟨(k, v), List.mem_map.mpr ⟨p, hp, ?_⟩, by simp⟩
    simp only [decide_eq_true_eq] at hpk
    simp [hpk]
  · simp [ha, List.any_append]

theorem setGeo_setGeo_same (gs : List (String × Option Geo)) (k : String)
    (v : Option Geo) : setGeo (setGeo gs k v) k v = setGeo gs k v := by
  conv_lhs => rw [setGeo]
  rw [if_pos (any_key_setGeo gs k v)]
  unfold setGeo
  by_cases ha : gs.any (fun q => q.1 = k)
  · simp only [ha, if_true, List.map_map]
    apply List.map_congr_left
    intro p _
    by_cases hk : p.1 = k <;> simp [Function.comp, hk]
  · simp only [ha, if_false, List.map_append]
    have hgs : gs.map (fun p => if p.1 = k then (k, v) else p) = gs.map id := by
      apply List.map_congr_left
      intro p hp
      have hnk : ¬ (p.1 = k) := by
        intro hc
        have hx : gs.any (fun q => q.1 = k) = true :=
          List.any_eq_true.mpr ⟨p, hp, by simp [hc]⟩
        exact ha hx
      simp [hnk]
    simp [hgs]

theorem keys_setGeo (gs : List (String × Option Geo)) (k : String) (v : Option Geo) :
    (setGeo gs k v).map Prod.fst =
      if gs.any (fun p => p.1 = k) then gs.map Prod.fst
      else gs.map Prod.fst ++ [k] := by
  by_cases ha : gs.any (fun p => p.1 = k)
  · rw [setGeo, if_pos ha, if_pos ha, List.map_map]
    apply List.map_congr_left
    intro p _
    by_cases hk : p.1 = k <;> simp [hk]
  · rw [setGeo, if_neg ha, if_neg ha]
    simp

theorem find?_filter {α : Type} (l : List α) (f p : α → Bool) :
    (l.filter f).find? p = l.find? (fun a => f a && p a) := by
  induction l with
  | nil => rfl
  | cons a l ih =>
    by_cases hf : f a
    · by_cases hp : p a
      · simp [List.filter_cons, hf, List.find?_cons, hp]
      · simp [List.filter_cons, hf, List.find?_cons, hp, ih]
    · simp [List.filter_cons, hf, List.find?_cons, ih]

end SJ

namespace SJ

/-! Characterization lemmas for `destroyGeometry` and `drawGeometry`. -/

theorem destroyGeometry_geometries (dom : String → Bool) (geo : Geo) (s : State) :
    (destroyGeometry dom geo s).geometries = setGeo s.geometries geo.geoId none := by
  unfold destroyGeometry
  split_ifs <;> rfl

theorem destroyGeometry_canvas (dom : String → Bool) (geo : Geo) (s : State) :
    (destroyGeometry dom geo s).canvas = s.canvas := by
  unfold destroyGeometry
  split_ifs <;> rfl

theorem destroyGeometry_time (dom : String → Bool) (geo : Geo) (s : State) :
    (destroyGeometry dom geo s).time = s.time := by
  unfold destroyGeometry
  split_ifs <;> rfl

theorem destroyGeometry_events (dom : String → Bool) (geo : Geo) (s : State) :
    (destroyGeometry dom geo s).events = s.events := by
  unfold destroyGeometry
  split_ifs <;> rfl

theorem destroyGeometry_marker (dom : String → Bool) (geo : Geo) (s : State) :
    (destroyGeometry dom geo s).currentBoundGeo =
      if s.currentBoundGeo = some geo.geoId then none else s.currentBoundGeo := by
  unfold destroyGeometry
  split_ifs <;> simp_all

theorem destroyGeometry_freed (dom : String → Bool) (geo : Geo) (s : State) :
    (destroyGeometry dom geo s).freed =
      if dom geo.canvas.canvasId then
        s.freed ++ [geo.vertexBuf.handle, geo.normalBuf.handle, geo.indexBuf.handle] ++
          (match geo.texCoordBuf with
            | some b => [b.handle]
            | none => [])
      else s.freed := by
  unfold destroyGeometry
  split_ifs <;> rfl

theorem drawGeometry_noCanvas (dom : String → Bool) (geoId : String) (s : State)
    (h : s.canvas = none) : drawGeometry dom geoId s = (s, some Err.noCanvasActive) := by
  simp [drawGeometry, h]

theorem drawGeometry_unknown (dom : String → Bool) (geoId : String) (s : State)
    (cv : Canvas) (hc : s.canvas = some cv)
    (hl : lookupGeo s.geometries geoId = none) :
    drawGeometry dom geoId s =
      ({ s with events := s.events ++ [Ev.shaderActivate] }, some Err.typeError) := by
  simp [drawGeometry, hc, hl]

theorem drawGeometry_bind_fixed (dom : String → Bool) (geoId : String) (s : State)
    (cv : Canvas) (geo : Geo) (hc : s.canvas = some cv)
    (hl : lookupGeo s.geometries geoId = some geo)
    (hm : s.currentBoundGeo ≠ some geoId) (hf : geo.fixed = true) :
    drawGeometry dom geoId s =
      ({ s with
          geometries := setGeo s.geometries geoId (some { geo with lastUsed := s.time }),
          currentBoundGeo := some geoId,
          events := s.events ++ [Ev.shaderActivate] ++
            (List.range 8).map Ev.disableVertexAttrib ++
            [Ev.geometryExported { geo with lastUsed := s.time },
             Ev.bindIndexBuffer geo.indexBuf.handle,
             Ev.drawElements geo.primitive geo.indexBuf.numItems, Ev.flush] }, none) := by
  simp [drawGeometry, hc, hl, hm, hf]

theorem drawGeometry_skip_fixed (dom : String → Bool) (geoId : String) (s : State)
    (cv : Canvas) (geo : Geo) (hc : s.canvas = some cv)
    (hl : lookupGeo s.geometries geoId = some geo)
    (hm : s.currentBoundGeo = some geoId) (hf : geo.fixed = true) :
    drawGeometry dom geoId s =
      ({ s with
          geometries := setGeo s.geometries geoId (some { geo with lastUsed := s.time }),
          events := s.events ++
            [Ev.shaderActivate, Ev.drawElements geo.primitive geo.indexBuf.numItems,
             Ev.flush] }, none) := by
  simp [drawGeometry, hc, hl, hm, hf]

theorem drawGeometry_bind_events (dom : String → Bool) (geoId : String) (s : State)
    (cv : Canvas) (geo : Geo) (hc : s.canvas = some cv)
    (hl : lookupGeo s.geometries geoId = some geo)
    (hm : s.currentBoundGeo ≠ some geoId) :
    (drawGeometry dom geoId s).2 = none ∧
    (drawGeometry dom geoId s).1.events = s.events ++ [Ev.shaderActivate] ++
      (List.range 8).map Ev.disableVertexAttrib ++
      [Ev.geometryExported { geo with lastUsed := s.time },
       Ev.bindIndexBuffer geo.indexBuf.handle,
       Ev.drawElements geo.primitive geo.indexBuf.numItems, Ev.flush] := by
  by_cases hf : geo.fixed
  · rw [drawGeometry_bind_fixed dom geoId s cv geo hc hl hm hf]
    simp
  · have hdraw : drawGeometry dom geoId s =
        ({ destroyGeometry dom { geo with lastUsed := s.time }
            { s with
              geometries := setGeo s.geometries geoId
                (some { geo with lastUsed := s.time }),
              currentBoundGeo := some geoId,
              events := s.events ++ [Ev.shaderActivate] ++
                (List.range 8).map Ev.disableVertexAttrib ++
                [Ev.geometryExported { geo with lastUsed := s.time },
                 Ev.bindIndexBuffer geo.indexBuf.handle,
                 Ev.drawElements geo.primitive geo.indexBuf.numItems, Ev.flush] }
          with currentBoundGeo := none }, none) := by
      simp [drawGeometry, hc, hl, hm, hf]
    rw [hdraw]
    simp [destroyGeometry_events]

end SJ

namespace SJ

theorem drawGeometry_skip_events (dom : String → Bool) (geoId : String) (s : State)
    (cv : Canvas) (geo : Geo) (hc : s.canvas = some cv)
    (hl : lookupGeo s.geometries geoId = some geo)
    (hm : s.currentBoundGeo = some geoId) :
    (drawGeometry dom geoId s).2 = none ∧
    (drawGeometry dom geoId s).1.events = s.events ++
      [Ev.shaderActivate, Ev.drawElements geo.primitive geo.indexBuf.numItems,
       Ev.flush] := by
  by_cases hf : geo.fixed
  · rw [drawGeometry_skip_fixed dom geoId s cv geo hc hl hm hf]
    simp
  · have hdraw : drawGeometry dom geoId s =
        ({ destroyGeometry dom { geo with lastUsed := s.time }
            { s with
              geometries := setGeo s.geometries geoId
                (some { geo with lastUsed := s.time }),
              events := s.events ++
                [Ev.shaderActivate,
                 Ev.drawElements geo.primitive geo.indexBuf.numItems, Ev.flush] }
          with currentBoundGeo := none }, none) := by
      simp [drawGeometry, hc, hl, hm, hf]
    rw [hdraw]
    simp [destroyGeometry_events]

/-! Concrete fixtures used by the closed theorems below. -/

/-- Host-environment oracle under which every canvas element is present in the
document. -/
def domLive : String → Bool := fun _ => true

/-- Sample canvas. -/
def canvas1 : Canvas := ⟨"c1"⟩

/-- Sample cached triangle record on `canvas1`, occupying device buffers
0, 1, 2, last used at logical time 5. -/
def geoCube : Geo :=
  { fixed := true, primitive := 4, type := "cube", geoId := "c1:cube",
    lastUsed := 5, canvas := canvas1, vertexBuf := ⟨0, 9, 3⟩,
    normalBuf := ⟨1, 9, 3⟩, indexBuf := ⟨2, 3, 1⟩, texCoordBuf := none }

/-- Backend state with an active canvas and an empty cache. -/
def emptyActiveState : State :=
  { time := 0, canvas := some canvas1, geometries := [], currentBoundGeo := none,
    nextBuf := 0, freed := [], events := [] }

/-- Backend state at logical time 10 whose only record `geoCube` (last used at
time 5, strictly the oldest) is exactly the currently bound geometry. -/
def boundOldState : State :=
  { time := 10, canvas := some canvas1, geometries := [("c1:cube", some geoCube)],
    currentBoundGeo := some "c1:cube", nextBuf := 3, freed := [], events := [] }

/-- C1: the spec claims the evictor never selects the record named by the
"currently bound" marker.  The source's own header comment promises the same
("While the ID is non-null, the corresponding geometry cannot be evicted"),
but the registered evictor callback has no such check: in `boundOldState` the
bound record `geoCube` is live, its canvas is in the DOM and it is the
strictly oldest record, and the evictor selects it, destroys its buffers and
reports success. -/
theorem evictor_selects_bound_record :
    boundOldState.currentBoundGeo = some "c1:cube" ∧
    lookupGeo boundOldState.geometries "c1:cube" = some geoCube ∧
    geoCube.lastUsed < boundOldState.time ∧
    domLive geoCube.canvas.canvasId = true ∧
    evictorCallback domLive boundOldState =
      ({ boundOldState with
          currentBoundGeo := none,
          freed := [0, 1, 2],
          geometries := [("c1:cube", none)] }, .ok true) := by
  decide

/-- C3 counterexample: with a canvas active and an identifier that resolves to
no live record, `drawGeometry` fails with a `TypeError` (the property write
`geo.lastUsed = time` on `undefined`), which is not the UnknownGeometry error
the claim names. -/
theorem draw_unknown_id_error_kind :
    emptyActiveState.canvas.isSome = true ∧
    lookupGeo emptyActiveState.geometries "c1:missing" = none ∧
    (drawGeometry domLive "c1:missing" emptyActiveState).2 = some Err.typeError ∧
    Err.typeError ≠ Err.unknownGeometry := by
  decide

/-- C3 amended: a draw on an identifier that does not resolve to a live record
while a canvas is active fails immediately — but with a `TypeError` raised by
dereferencing the missing record (after the shader-activate notification has
already been fired), not with a dedicated UnknownGeometry error. -/
theorem draw_unknown_id_fails_typeError (dom : String → Bool) (geoId : String)
    (s : State) (cv : Canvas) (hc : s.canvas = some cv)
    (hl : lookupGeo s.geometries geoId = none) :
    drawGeometry dom geoId s =
      ({ s with events := s.events ++ [Ev.shaderActivate] }, some Err.typeError) :=
  drawGeometry_unknown dom geoId s cv hc hl

/-- Witness for `draw_unknown_id_fails_typeError` at a concrete input. -/
theorem draw_unknown_id_fails_typeError_witness :
    drawGeometry domLive "c1:missing" emptyActiveState =
      ({ emptyActiveState with
          events := emptyActiveState.events ++ [Ev.shaderActivate] },
       some Err.typeError) :=
  draw_unknown_id_fails_typeError domLive "c1:missing" emptyActiveState canvas1
    (by decide) (by decide)

/-- C10: every draw made while a canvas is active fires `SHADER_ACTIVATE`
exactly once, and it does so before the identifier is resolved against the
cache — when the identifier does not resolve, the notification is already in
the trace and the call then fails. -/
theorem draw_always_emits_shader_activate (dom : String → Bool) (geoId : String)
    (s : State) (cv : Canvas) (hc : s.canvas = some cv) :
    countShaderActivates (drawGeometry dom geoId s).1.events =
      countShaderActivates s.events + 1 ∧
    (lookupGeo s.geometries geoId = none →
      (drawGeometry dom geoId s).1.events = s.events ++ [Ev.shaderActivate] ∧
      (drawGeometry dom geoId s).2 ≠ none) := by
  constructor
  · match hl : lookupGeo s.geometries geoId with
    | none =>
      rw [drawGeometry_unknown dom geoId s cv hc hl]
      simp [countShaderActivates]
    | some geo =>
      by_cases hm : s.currentBoundGeo = some geoId
      · obtain ⟨-, hev⟩ := drawGeometry_skip_events dom geoId s cv geo hc hl hm
        rw [hev]
        simp [countShaderActivates, List.countP_append]
      · obtain ⟨-, hev⟩ := drawGeometry_bind_events dom geoId s cv geo hc hl hm
        rw [hev]
        simp [countShaderActivates, List.countP_append, List.countP_map]
  · intro hl
    rw [drawGeometry_unknown dom geoId s cv hc hl]
    simp

/-- Witness for `draw_always_emits_shader_activate` at a concrete input: the
failing draw on an empty cache still fires the notification once. -/
theorem draw_always_emits_shader_activate_witness :
    countShaderActivates
        (drawGeometry domLive "c1:missing" emptyActiveState).1.events =
      countShaderActivates emptyActiveState.events + 1 ∧
    (drawGeometry domLive "c1:missing" emptyActiveState).1.events =
      emptyActiveState.events ++ [Ev.shaderActivate] := by
  have h := draw_always_emits_shader_activate domLive "c1:missing"
    emptyActiveState canvas1 (by decide)
  exact ⟨h.1, (h.2 (by decide)).1⟩

end SJ

namespace SJ

theorem resetLoop_canvas (dom : String → Bool) (keys : List String) (s : State) :
    (resetLoop dom keys s).1.canvas = s.canvas := by
  induction keys generalizing s with
  | nil => rfl
  | cons k rest ih =>
    unfold resetLoop
    match hl : lookupGeo s.geometries k with
    | none => rfl
    | some geo =>
      rw [ih (destroyGeometry dom geo s)]
      exact destroyGeometry_canvas dom geo s

theorem handleReset_canvas (dom : String → Bool) (s : State) (h : s.canvas = none) :
    (handleReset dom s).1.canvas = none := by
  unfold handleReset
  split
  · rfl
  · rename_i s1 e hr
    have hcv := resetLoop_canvas dom (s.geometries.map (fun p => p.1)) s
    rw [hr] at hcv
    simpa [h] using hcv

theorem evictorCallback_canvas (dom : String → Bool) (s : State) :
    (evictorCallback dom s).1.canvas = s.canvas := by
  unfold evictorCallback
  match hs : evictScan dom s.geometries s.time none with
  | .error e => rfl
  | .ok none => rfl
  | .ok (some p) => exact destroyGeometry_canvas dom p.2 s

/-- C9: the `SCENE_ACTIVATED` handler clears both the canvas reference and the
bound marker, and while no canvas is active `findGeometry`, `createGeometry`
and `drawGeometry` all fail with `NoCanvasActive` (the spec's NoActiveSurface)
without touching the state; moreover every operation and event other than
`CANVAS_ACTIVATED` keeps the canvas cleared, so the failures persist until
the next canvas activation. -/
theorem scene_activated_blocks_all_ops :
    (∀ s : State, (handleSceneActivated s).canvas = none ∧
      (handleSceneActivated s).currentBoundGeo = none) ∧
    (∀ s : State, s.canvas = none →
      (∀ ty, findGeometry ty s = .error Err.noCanvasActive) ∧
      (∀ gate ty data, createGeometry gate ty data s = (s, .error Err.noCanvasActive)) ∧
      (∀ dom geoId, drawGeometry dom geoId s = (s, some Err.noCanvasActive))) ∧
    (∀ s : State, s.canvas = none →
      (handleShaderActivated s).canvas = none ∧
      (handleShaderDeactivated s).canvas = none ∧
      (handleSceneActivated s).canvas = none ∧
      (handleCanvasDeactivated s).canvas = none ∧
      (∀ t, (handleTimeUpdated t s).canvas = none) ∧
      (∀ dom, (handleReset dom s).1.canvas = none) ∧
      (∀ dom, (evictorCallback dom s).1.canvas = none)) := by
  refine ⟨fun s => ⟨rfl, rfl⟩, fun s h => ⟨?_, ?_, ?_⟩, fun s h => ?_⟩
  · intro ty
    simp [findGeometry, h]
  · intro gate ty data
    simp [createGeometry, h]
  · intro dom geoId
    exact drawGeometry_noCanvas dom geoId s h
  · refine ⟨by simp [handleShaderActivated, h], by simp [handleShaderDeactivated, h],
      rfl, rfl, fun t => by simp [handleTimeUpdated, h],
      fun dom => handleReset_canvas dom s h,
      fun dom => by rw [evictorCallback_canvas dom s]; exact h⟩

/-- Witness for `scene_activated_blocks_all_ops` at a concrete input: after
`SCENE_ACTIVATED` hits `boundOldState`, a lookup, a create and a draw all
fail with `NoCanvasActive`. -/
theorem scene_activated_blocks_all_ops_witness :
    findGeometry "cube" (handleSceneActivated boundOldState) =
      .error Err.noCanvasActive ∧
    createGeometry (fun _ => true) "cube"
        { primitive := "triangles", positions := [1], normals := [1],
          uv := none, indices := [0] }
        (handleSceneActivated boundOldState) =
      (handleSceneActivated boundOldState, .error Err.noCanvasActive) ∧
    drawGeometry domLive "c1:cube" (handleSceneActivated boundOldState) =
      (handleSceneActivated boundOldState, some Err.noCanvasActive) := by
  have h := scene_activated_blocks_all_ops
  have hc : (handleSceneActivated boundOldState).canvas = none :=
    (h.1 boundOldState).1
  exact ⟨(h.2.1 _ hc).1 "cube",
         (h.2.1 _ hc).2.1 (fun _ => true) "cube" _,
         (h.2.1 _ hc).2.2 domLive "c1:cube"⟩

end SJ

namespace SJ

/-- Backend state identical to `boundOldState` except that no geometry is
currently bound. -/
def freshMarkerState : State := { boundOldState with currentBoundGeo := none }

/-- C6 counterexample: when the identifier is already the "currently bound"
marker before the first of the two consecutive draws (here because it was
drawn earlier in the same batch), both draws take the fast path and the pair
emits zero geometry-export notifications, not exactly one. -/
theorem double_draw_already_bound_no_export :
    lookupGeo boundOldState.geometries "c1:cube" = some geoCube ∧
    boundOldState.currentBoundGeo = some "c1:cube" ∧
    (drawGeometry domLive "c1:cube" boundOldState).2 = none ∧
    (drawGeometry domLive "c1:cube"
        (drawGeometry domLive "c1:cube" boundOldState).1).2 = none ∧
    countExports (drawGeometry domLive "c1:cube"
        (drawGeometry domLive "c1:cube" boundOldState).1).1.events = 0 := by
  decide

/-- C6 amended: provided the identifier is not already the currently bound
marker when the first draw occurs, two consecutive draws of the same live
fixed record succeed and emit exactly one geometry-export notification across
both calls; the second draw appends only the shader-activate, draw-elements
and flush effects — no attribute disabling, no export, no index-buffer
bind — while still issuing the draw call.  (When the identifier is already
bound beforehand, both draws skip the export and zero notifications are
emitted.) -/
theorem drawGeometry_skip_fixed_stamped (dom : String → Bool) (geoId : String)
    (t : State) (cv : Canvas) (g : Geo) (hc : t.canvas = some cv)
    (hl : lookupGeo t.geometries geoId = some g)
    (hm : t.currentBoundGeo = some geoId) (hf : g.fixed = true)
    (ht : g.lastUsed = t.time) :
    drawGeometry dom geoId t =
      ({ t with
          geometries := setGeo t.geometries geoId (some g),
          events := t.events ++
            [Ev.shaderActivate, Ev.drawElements g.primitive g.indexBuf.numItems,
             Ev.flush] }, none) := by
  rw [drawGeometry_skip_fixed dom geoId t cv g hc hl hm hf, ← ht]

theorem double_draw_single_export (dom : String → Bool) (geoId : String)
    (s : State) (cv : Canvas) (geo : Geo) (hc : s.canvas = some cv)
    (hl : lookupGeo s.geometries geoId = some geo) (hf : geo.fixed = true)
    (hm : s.currentBoundGeo ≠ some geoId) :
    (drawGeometry dom geoId s).2 = none ∧
    (drawGeometry dom geoId (drawGeometry dom geoId s).1).2 = none ∧
    (drawGeometry dom geoId (drawGeometry dom geoId s).1).1.events =
      (drawGeometry dom geoId s).1.events ++
        [Ev.shaderActivate, Ev.drawElements geo.primitive geo.indexBuf.numItems,
         Ev.flush] ∧
    countExports (drawGeometry dom geoId (drawGeometry dom geoId s).1).1.events =
      countExports s.events + 1 := by
  have h1 := drawGeometry_bind_fixed dom geoId s cv geo hc hl hm hf
  have hcT : (drawGeometry dom geoId s).1.canvas = some cv := by rw [h1]; exact hc
  have hlT : lookupGeo (drawGeometry dom geoId s).1.geometries geoId =
      some { geo with lastUsed := s.time } := by
    rw [h1]
    exact lookupGeo_setGeo_self s.geometries geoId _
  have hmT : (drawGeometry dom geoId s).1.currentBoundGeo = some geoId := by
    rw [h1]
  have htT : ({ geo with lastUsed := s.time } : Geo).lastUsed =
      (drawGeometry dom geoId s).1.time := by rw [h1]
  have hevT : (drawGeometry dom geoId s).1.events = s.events ++
      [Ev.shaderActivate] ++ (List.range 8).map Ev.disableVertexAttrib ++
      [Ev.geometryExported { geo with lastUsed := s.time },
       Ev.bindIndexBuffer geo.indexBuf.handle,
       Ev.drawElements geo.primitive geo.indexBuf.numItems, Ev.flush] := by
    rw [h1]
  have h2 := drawGeometry_skip_fixed_stamped dom geoId (drawGeometry dom geoId s).1
    cv { geo with lastUsed := s.time } hcT hlT hmT hf htT
  refine ⟨by rw [h1], by rw [h2], by rw [h2], ?_⟩
  rw [h2]
  show countExports ((drawGeometry dom geoId s).1.events ++
    [Ev.shaderActivate, Ev.drawElements geo.primitive geo.indexBuf.numItems,
     Ev.flush]) = countExports s.events + 1
  rw [hevT]
  simp [countExports, List.countP_append, List.countP_map, Function.comp]

end SJ

namespace SJ

/-- Witness for `double_draw_single_export` at a concrete input: drawing the
cube twice from an unbound state succeeds and emits exactly one export. -/
theorem double_draw_single_export_witness :
    (drawGeometry domLive "c1:cube" freshMarkerState).2 = none ∧
    (drawGeometry domLive "c1:cube"
        (drawGeometry domLive "c1:cube" freshMarkerState).1).2 = none ∧
    countExports (drawGeometry domLive "c1:cube"
        (drawGeometry domLive "c1:cube" freshMarkerState).1).1.events = 1 := by
  have h := double_draw_single_export domLive "c1:cube" freshMarkerState canvas1
    geoCube (by decide) (by decide) (by decide) (by decide)
  refine ⟨h.1, h.2.1, ?_⟩
  have h4 := h.2.2.2
  simpa [freshMarkerState, boundOldState, countExports] using h4

/-! Lemmas about the `RESET` handler for C7. -/

theorem resetLoop_ok (dom : String → Bool) (keys : List String) (s : State)
    (hnd : keys.Nodup)
    (hall : ∀ k ∈ keys, ∃ g, lookupGeo s.geometries k = some g ∧ g.geoId = k) :
    (resetLoop dom keys s).2 = none := by
  induction keys generalizing s with
  | nil => rfl
  | cons k rest ih =>
    obtain ⟨g, hg, hgid⟩ := hall k (by simp)
    unfold resetLoop
    rw [hg]
    refine ih _ (List.Nodup.of_cons hnd) ?_
    intro k2 hk2
    obtain ⟨g2, hg2, hgid2⟩ := hall k2 (by simp [hk2])
    refine ⟨g2, ?_, hgid2⟩
    rw [destroyGeometry_geometries, hgid]
    have hne : k2 ≠ k := by
      intro hc
      subst hc
      exact (List.nodup_cons.mp hnd).1 hk2
    rw [lookupGeo_setGeo_ne s.geometries k k2 none hne]
    exact hg2

theorem find?_key_of_nodup (gs : List (String × Option Geo))
    (p : String × Option Geo) (hnd : (gs.map (fun q => q.1)).Nodup)
    (hp : p ∈ gs) : gs.find? (fun q => q.1 = p.1) = some p := by
  induction gs with
  | nil => cases hp
  | cons a t ih =>
    have hnd1 : (a.1 :: t.map (fun q => q.1)).Nodup := hnd
    have hnd2 := List.nodup_cons.mp hnd1
    rcases List.mem_cons.mp hp with h | hmem
    · subst h
      simp [List.find?_cons]
    · have hane : ¬ (a.1 = p.1) := by
        intro hc
        have hmm : p.1 ∈ t.map (fun q => q.1) := List.mem_map.mpr ⟨p, hmem, rfl⟩
        rw [← hc] at hmm
        exact hnd2.1 hmm
      simp only [List.find?_cons, decide_eq_false hane]
      exact ih hnd2.2 hmem

theorem handleReset_ok (dom : String → Bool) (s : State)
    (hnd : (s.geometries.map (fun p => p.1)).Nodup)
    (hall : ∀ p ∈ s.geometries, ∃ g, p.2 = some g ∧ g.geoId = p.1) :
    (handleReset dom s).2 = none ∧
    (handleReset dom s).1.currentBoundGeo = none ∧
    (handleReset dom s).1.geometries = [] := by
  have hlookup : ∀ k ∈ s.geometries.map (fun p => p.1),
      ∃ g, lookupGeo s.geometries k = some g ∧ g.geoId = k := by
    intro k hk
    obtain ⟨p, hp, hpk⟩ := List.mem_map.mp hk
    obtain ⟨g, hg, hgid⟩ := hall p hp
    refine ⟨g, ?_, by rw [hgid, hpk]⟩
    have hfind : s.geometries.find? (fun q => q.1 = k) = some p := by
      rw [← hpk]
      exact find?_key_of_nodup s.geometries p hnd hp
    simp [lookupGeo, lookupEntry, hfind, hg]
  have hok := resetLoop_ok dom (s.geometries.map (fun p => p.1)) s
    (by
      have : (s.geometries.map (fun p => p.1)).Nodup := hnd
      exact this)
    hlookup
  unfold handleReset
  split
  · exact ⟨rfl, rfl, rfl⟩
  · rename_i s1 e hr
    rw [hr] at hok
    simp at hok

end SJ

namespace SJ

/-- Backend state in which an earlier destruction left a `null` placeholder
entry ("c1:a") ahead of the live bound record `geoCube`. -/
def staleResetState : State :=
  { time := 10, canvas := some canvas1,
    geometries := [("c1:a", none), ("c1:cube", some geoCube)],
    currentBoundGeo := some "c1:cube", nextBuf := 3, freed := [], events := [] }

/-- C7 counterexample: delivering `RESET` to a state holding a destroyed
(`null`) cache entry makes the handler throw a `TypeError` before reaching
the assignments that clear the marker; the marker survives, and the next
successful draw of the still-bound identifier takes the fast path and emits
no geometry-export notification. -/
theorem reset_crash_keeps_marker :
    (handleReset domLive staleResetState).2 = some Err.typeError ∧
    (handleReset domLive staleResetState).1.currentBoundGeo = some "c1:cube" ∧
    (drawGeometry domLive "c1:cube"
        (handleReset domLive staleResetState).1).2 = none ∧
    countExports (drawGeometry domLive "c1:cube"
        (handleReset domLive staleResetState).1).1.events = 0 := by
  decide

/-- C7 amended: the five events surface-activated, surface-deactivated,
shader-activated, shader-deactivated and scene-activated always unset the
"currently bound" marker, and global-reset unsets it whenever its handler
completes — which it does on every well-formed cache (keys unique, every
entry live and stored under its own id; a destroyed `null` placeholder
instead makes the handler throw and can leave the marker set).  With the
marker unset, the next successful draw always performs the full
disable/export/bind sequence, never the fast path. -/
theorem lifecycle_events_clear_marker :
    (∀ s : State, (handleSceneActivated s).currentBoundGeo = none) ∧
    (∀ (c : Canvas) (s : State),
      (handleCanvasActivated c s).currentBoundGeo = none) ∧
    (∀ s : State, (handleCanvasDeactivated s).currentBoundGeo = none) ∧
    (∀ s : State, (handleShaderActivated s).currentBoundGeo = none) ∧
    (∀ s : State, (handleShaderDeactivated s).currentBoundGeo = none) ∧
    (∀ (dom : String → Bool) (s : State),
      (s.geometries.map (fun p => p.1)).Nodup →
      (∀ p ∈ s.geometries, p.2.map (fun g => g.geoId) = some p.1) →
      (handleReset dom s).2 = none ∧
      (handleReset dom s).1.currentBoundGeo = none) ∧
    (∀ (dom : String → Bool) (geoId : String) (s : State),
      s.currentBoundGeo = none → (drawGeometry dom geoId s).2 = none →
      ∃ g, (drawGeometry dom geoId s).1.events = s.events ++
        [Ev.shaderActivate] ++ (List.range 8).map Ev.disableVertexAttrib ++
        [Ev.geometryExported g, Ev.bindIndexBuffer g.indexBuf.handle,
         Ev.drawElements g.primitive g.indexBuf.numItems, Ev.flush]) := by
  refine ⟨fun s => rfl, fun c s => rfl, fun s => rfl, fun s => rfl, fun s => rfl,
    ?_, ?_⟩
  · intro dom s hnd hall
    have hall2 : ∀ p ∈ s.geometries, ∃ g, p.2 = some g ∧ g.geoId = p.1 := by
      intro p hp
      have h := hall p hp
      match hv : p.2 with
      | none => rw [hv] at h; simp at h
      | some g =>
        rw [hv] at h
        exact ⟨g, rfl, by simpa using h⟩
    have := handleReset_ok dom s hnd hall2
    exact ⟨this.1, this.2.1⟩
  · intro dom geoId s hmark hok
    match hcv : s.canvas with
    | none =>
      rw [drawGeometry_noCanvas dom geoId s hcv] at hok
      simp at hok
    | some cv =>
      match hl : lookupGeo s.geometries geoId with
      | none =>
        rw [drawGeometry_unknown dom geoId s cv hcv hl] at hok
        simp at hok
      | some geo =>
        have hm : s.currentBoundGeo ≠ some geoId := by
          rw [hmark]
          exact fun hc => Option.noConfusion hc
        obtain ⟨-, hev⟩ := drawGeometry_bind_events dom geoId s cv geo hcv hl hm
        exact ⟨{ geo with lastUsed := s.time }, hev⟩

/-- Witness for `lifecycle_events_clear_marker` at concrete inputs: a reset of
the well-formed `boundOldState` completes and unsets the marker, and a
successful draw from the unset-marker state `freshMarkerState` emits exactly
one export. -/
theorem lifecycle_events_clear_marker_witness :
    (handleReset domLive boundOldState).2 = none ∧
    (handleReset domLive boundOldState).1.currentBoundGeo = none ∧
    (handleShaderActivated boundOldState).currentBoundGeo = none ∧
    countExports (drawGeometry domLive "c1:cube" freshMarkerState).1.events = 1 := by
  have h := lifecycle_events_clear_marker
  have hr := h.2.2.2.2.2.1 domLive boundOldState (by decide) (by decide)
  have hd := h.2.2.2.2.2.2 domLive "c1:cube" freshMarkerState (by decide) (by decide)
  refine ⟨hr.1, hr.2, h.2.2.2.1 boundOldState, ?_⟩
  obtain ⟨g, hev⟩ := hd
  rw [hev]
  simp [freshMarkerState, boundOldState, countExports, List.countP_append,
    List.countP_map, Function.comp]

end SJ

namespace SJ

/-- C8 counterexample: destroying the same record twice while its canvas is
still in the DOM runs every buffer `destroy()` a second time — the freed log
gains `[0, 1, 2]` twice — so the second call is not free of double-frees even
though the cache mapping is unchanged and no error is raised. -/
theorem double_destroy_double_free :
    (destroyGeometry domLive geoCube boundOldState).freed = [0, 1, 2] ∧
    (destroyGeometry domLive geoCube
        (destroyGeometry domLive geoCube boundOldState)).freed =
      [0, 1, 2, 0, 1, 2] ∧
    (destroyGeometry domLive geoCube
        (destroyGeometry domLive geoCube boundOldState)).geometries =
      (destroyGeometry domLive geoCube boundOldState).geometries := by
  decide

/-- C8 amended: a second destroy of the same record never raises (the
operation is total), leaves the cache mapping and the bound marker exactly as
after the first call, and is a complete no-op when the owning canvas is gone
from the DOM; but when the canvas is still resolvable it releases the
record's device buffers a second time (a double-free). -/
theorem destroy_twice (dom : String → Bool) (geo : Geo) (s : State) :
    (destroyGeometry dom geo (destroyGeometry dom geo s)).geometries =
      (destroyGeometry dom geo s).geometries ∧
    (destroyGeometry dom geo (destroyGeometry dom geo s)).currentBoundGeo =
      (destroyGeometry dom geo s).currentBoundGeo ∧
    (dom geo.canvas.canvasId = false →
      destroyGeometry dom geo (destroyGeometry dom geo s) =
        destroyGeometry dom geo s) ∧
    (dom geo.canvas.canvasId = true →
      (destroyGeometry dom geo (destroyGeometry dom geo s)).freed =
        (destroyGeometry dom geo s).freed ++
          [geo.vertexBuf.handle, geo.normalBuf.handle, geo.indexBuf.handle] ++
          (match geo.texCoordBuf with
            | some b => [b.handle]
            | none => [])) := by
  have hm1 : (destroyGeometry dom geo s).currentBoundGeo ≠ some geo.geoId := by
    rw [destroyGeometry_marker]
    split_ifs with h
    · simp
    · exact h
  refine ⟨?_, ?_, ?_, ?_⟩
  · rw [destroyGeometry_geometries, destroyGeometry_geometries,
      setGeo_setGeo_same]
  · rw [destroyGeometry_marker, if_neg hm1]
  · intro hdom
    conv_lhs => rw [destroyGeometry]
    simp only [if_neg hm1, hdom, Bool.false_eq_true, if_false]
    rw [destroyGeometry_geometries, setGeo_setGeo_same,
      ← destroyGeometry_geometries dom geo s]
  · intro hdom
    rw [destroyGeometry_freed]
    simp [hdom]

/-- Witness for `destroy_twice` at a concrete input: the second destroy of
`geoCube` keeps the cache mapping and appends the same three handles to the
freed log again. -/
theorem destroy_twice_witness :
    (destroyGeometry domLive geoCube
        (destroyGeometry domLive geoCube boundOldState)).geometries =
      (destroyGeometry domLive geoCube boundOldState).geometries ∧
    (destroyGeometry domLive geoCube
        (destroyGeometry domLive geoCube boundOldState)).freed =
      (destroyGeometry domLive geoCube boundOldState).freed ++ [0, 1, 2] := by
  have h := destroy_twice domLive geoCube boundOldState
  refine ⟨h.1, ?_⟩
  have h4 := h.2.2.2 (by decide)
  simpa [geoCube] using h4

end SJ

namespace SJ

theorem createArrayBuffer_err (gate : Nat → Bool) (n isz : Nat) (s s2 : State)
    (e : Err) (h : createArrayBuffer gate n isz s = (s2, .error e)) :
    s2 = s ∧ e = Err.allocationFailure := by
  unfold createArrayBuffer at h
  split at h
  · exact absurd h (by simp)
  · injection h with h1 h2
    injection h2 with h2
    exact ⟨h1.symm, h2.symm⟩

theorem createArrayBuffer_ok (gate : Nat → Bool) (n isz : Nat) (s s2 : State)
    (b : Buf) (h : createArrayBuffer gate n isz s = (s2, .ok b)) :
    s2 = { s with nextBuf := s.nextBuf + 1 } ∧ b = ⟨s.nextBuf, n, isz⟩ := by
  unfold createArrayBuffer at h
  split at h
  · injection h with h1 h2
    injection h2 with h2
    exact ⟨h1.symm, h2.symm⟩
  · exact absurd h (by simp)


theorem allocTexCoord_err (gate : Nat → Bool) (uv : Option (List Int))
    (s s2 : State) (e : Err) (h : allocTexCoord gate uv s = (s2, .error e)) :
    s2 = s ∧ e = Err.allocationFailure := by
  match uv with
  | none => exact absurd h (by simp [allocTexCoord])
  | some l =>
    simp only [allocTexCoord] at h
    split at h
    · rename_i s3 e3 h3
      injection h with h1 h2
      injection h2 with h2
      obtain ⟨rfl, rfl⟩ := createArrayBuffer_err gate _ _ _ _ _ h3
      exact ⟨h1.symm, h2.symm⟩
    · exact absurd h (by simp)

theorem allocTexCoord_ok (gate : Nat → Bool) (uv : Option (List Int))
    (s s2 : State) (tb : Option Buf) (h : allocTexCoord gate uv s = (s2, .ok tb)) :
    (uv = none ∧ s2 = s ∧ tb = none) ∨
    (∃ l, uv = some l ∧ s2 = { s with nextBuf := s.nextBuf + 1 } ∧
      tb = some ⟨s.nextBuf, l.length, 2⟩) := by
  match uv with
  | none =>
    simp only [allocTexCoord] at h
    injection h with h1 h2
    injection h2 with h2
    exact Or.inl ⟨rfl, h1.symm, h2.symm⟩
  | some l =>
    simp only [allocTexCoord] at h
    split at h
    · exact absurd h (by simp)
    · rename_i s3 b3 h3
      obtain ⟨rfl, rfl⟩ := createArrayBuffer_ok gate _ _ _ _ _ h3
      injection h with h1 h2
      injection h2 with h2
      exact Or.inr ⟨l, rfl, h1.symm, h2.symm⟩

/-- C4: whenever `createGeometry` fails — unsupported primitive kind, missing
primitive, no active canvas, or a rejected buffer allocation at any point —
the cache mapping is exactly what it was before the call (no record is
inserted), every device buffer handle allocated during the call has been
released before the error propagates, and nothing outside that handle range
is newly freed. -/
theorem create_failure_unwinds (gate : Nat → Bool) (ty : String) (data : GeoData)
    (s s2 : State) (e : Err)
    (h : createGeometry gate ty data s = (s2, .error e)) :
    s2.geometries = s.geometries ∧
    s2.canvas = s.canvas ∧
    s.nextBuf ≤ s2.nextBuf ∧
    (∀ n, s.nextBuf ≤ n → n < s2.nextBuf → n ∈ s2.freed) ∧
    (∀ n ∈ s2.freed, n ∈ s.freed ∨ (s.nextBuf ≤ n ∧ n < s2.nextBuf)) := by
  unfold createGeometry at h
  split at h
  · -- no canvas active
    injection h with h1 h2
    subst h1
    exact ⟨rfl, rfl, Nat.le_refl _, fun n h1 h2 => absurd h2 (by omega),
      fun n hn => Or.inl hn⟩
  · rename_i cv hcv
    split at h
    · -- data.primitive falsy
      injection h with h1 h2
      subst h1
      exact ⟨rfl, rfl, Nat.le_refl _, fun n h1 h2 => absurd h2 (by omega),
        fun n hn => Or.inl hn⟩
    · split at h
      · -- vertex allocation rejected: nothing allocated yet, nothing to free
        rename_i sv ev hv
        obtain ⟨rfl, -⟩ := createArrayBuffer_err gate _ _ _ _ _ hv
        injection h with h1 h2
        subst h1
        exact ⟨rfl, rfl, Nat.le_refl _, fun n h1 h2 => absurd h2 (by omega),
          fun n hn => Or.inl hn⟩
      · rename_i sv vbuf hv
        obtain ⟨rfl, rfl⟩ := createArrayBuffer_ok gate _ _ _ _ _ hv
        split at h
        · -- normal allocation rejected: vertex buffer freed
          rename_i sn en hn
          obtain ⟨rfl, -⟩ := createArrayBuffer_err gate _ _ _ _ _ hn
          injection h with h1 h2
          subst h1
          refine ⟨rfl, rfl, ?_, ?_, ?_⟩
          · show s.nextBuf ≤ s.nextBuf + 1
            omega
          · intro n h1 h2
            have h2b : n < s.nextBuf + 1 := h2
            show n ∈ s.freed ++ [s.nextBuf]
            have h3 : n = s.nextBuf := by omega
            simp [h3]
          · intro n hn2
            have hn3 : n ∈ s.freed ++ [s.nextBuf] := hn2
            rw [List.mem_append] at hn3
            rcases hn3 with h3 | h3
            · exact Or.inl h3
            · right
              simp only [List.mem_singleton] at h3
              show s.nextBuf ≤ n ∧ n < s.nextBuf + 1
              omega
        · rename_i sn nbuf hn
          obtain ⟨rfl, rfl⟩ := createArrayBuffer_ok gate _ _ _ _ _ hn
          split at h
          · -- texcoord allocation rejected: vertex and normal buffers freed
            rename_i st et htc
            obtain ⟨rfl, -⟩ := allocTexCoord_err gate _ _ _ _ htc
            injection h with h1 h2
            subst h1
            refine ⟨rfl, rfl, ?_, ?_, ?_⟩
            · show s.nextBuf ≤ s.nextBuf + 1 + 1
              omega
            · intro n h1 h2
              have h2b : n < s.nextBuf + 1 + 1 := h2
              show n ∈ s.freed ++ [s.nextBuf, s.nextBuf + 1]
              have h3 : n = s.nextBuf ∨ n = s.nextBuf + 1 := by omega
              rcases h3 with h3 | h3 <;> simp [h3]
            · intro n hn2
              have hn3 : n ∈ s.freed ++ [s.nextBuf, s.nextBuf + 1] := hn2
              rw [List.mem_append] at hn3
              rcases hn3 with h3 | h3
              · exact Or.inl h3
              · right
                show s.nextBuf ≤ n ∧ n < s.nextBuf + 1 + 1
                fin_cases h3 <;> omega
          · rename_i st tcb htc
            rcases allocTexCoord_ok gate _ _ _ _ htc with
              ⟨huv, rfl, rfl⟩ | ⟨l, huv, rfl, rfl⟩
            · -- no uv array
              split at h
              · -- index allocation rejected: vertex and normal buffers freed
                rename_i si ei hi
                obtain ⟨rfl, -⟩ := createArrayBuffer_err gate _ _ _ _ _ hi
                injection h with h1 h2
                subst h1
                refine ⟨rfl, rfl, ?_, ?_, ?_⟩
                · show s.nextBuf ≤ s.nextBuf + 1 + 1
                  omega
                · intro n h1 h2
                  have h2b : n < s.nextBuf + 1 + 1 := h2
                  show n ∈ s.freed ++ [s.nextBuf, s.nextBuf + 1]
                  have h3 : n = s.nextBuf ∨ n = s.nextBuf + 1 := by omega
                  rcases h3 with h3 | h3 <;> simp [h3]
                · intro n hn2
                  have hn3 : n ∈ s.freed ++ [s.nextBuf, s.nextBuf + 1] := hn2
                  rw [List.mem_append] at hn3
                  rcases hn3 with h3 | h3
                  · exact Or.inl h3
                  · right
                    show s.nextBuf ≤ n ∧ n < s.nextBuf + 1 + 1
                    fin_cases h3 <;> omega
              · rename_i si ibuf hi
                obtain ⟨rfl, rfl⟩ := createArrayBuffer_ok gate _ _ _ _ _ hi
                split at h
                · -- unsupported primitive string: all three buffers freed
                  injection h with h1 h2
                  subst h1
                  refine ⟨rfl, rfl, ?_, ?_, ?_⟩
                  · show s.nextBuf ≤ s.nextBuf + 1 + 1 + 1
                    omega
                  · intro n h1 h2
                    have h2b : n < s.nextBuf + 1 + 1 + 1 := h2
                    show n ∈ s.freed ++ [s.nextBuf, s.nextBuf + 1, s.nextBuf + 1 + 1]
                    have h3 : n = s.nextBuf ∨ n = s.nextBuf + 1 ∨
                        n = s.nextBuf + 1 + 1 := by omega
                    rcases h3 with h3 | h3 | h3 <;> simp [h3]
                  · intro n hn2
                    have hn3 : n ∈ s.freed ++
                        [s.nextBuf, s.nextBuf + 1, s.nextBuf + 1 + 1] := hn2
                    rw [List.mem_append] at hn3
                    rcases hn3 with h3 | h3
                    · exact Or.inl h3
                    · right
                      show s.nextBuf ≤ n ∧ n < s.nextBuf + 1 + 1 + 1
                      fin_cases h3 <;> omega
                · -- success: contradicts the error hypothesis
                  exact absurd h (by simp)
            · -- uv array present
              split at h
              · -- index allocation rejected: vertex, normal, texcoord freed
                rename_i si ei hi
                obtain ⟨rfl, -⟩ := createArrayBuffer_err gate _ _ _ _ _ hi
                injection h with h1 h2
                subst h1
                refine ⟨rfl, rfl, ?_, ?_, ?_⟩
                · show s.nextBuf ≤ s.nextBuf + 1 + 1 + 1
                  omega
                · intro n h1 h2
                  have h2b : n < s.nextBuf + 1 + 1 + 1 := h2
                  show n ∈ s.freed ++ [s.nextBuf, s.nextBuf + 1, s.nextBuf + 1 + 1]
                  have h3 : n = s.nextBuf ∨ n = s.nextBuf + 1 ∨
                      n = s.nextBuf + 1 + 1 := by omega
                  rcases h3 with h3 | h3 | h3 <;> simp [h3]
                · intro n hn2
                  have hn3 : n ∈ s.freed ++
                      [s.nextBuf, s.nextBuf + 1, s.nextBuf + 1 + 1] := hn2
                  rw [List.mem_append] at hn3
                  rcases hn3 with h3 | h3
                  · exact Or.inl h3
                  · right
                    show s.nextBuf ≤ n ∧ n < s.nextBuf + 1 + 1 + 1
                    fin_cases h3 <;> omega
              · rename_i si ibuf hi
                obtain ⟨rfl, rfl⟩ := createArrayBuffer_ok gate _ _ _ _ _ hi
                split at h
                · -- unsupported primitive string: all four buffers freed
                  injection h with h1 h2
                  subst h1
                  refine ⟨rfl, rfl, ?_, ?_, ?_⟩
                  · show s.nextBuf ≤ s.nextBuf + 1 + 1 + 1 + 1
                    omega
                  · intro n h1 h2
                    have h2b : n < s.nextBuf + 1 + 1 + 1 + 1 := h2
                    show n ∈ s.freed ++ [s.nextBuf, s.nextBuf + 1,
                      s.nextBuf + 1 + 1, s.nextBuf + 1 + 1 + 1]
                    have h3 : n = s.nextBuf ∨ n = s.nextBuf + 1 ∨
                        n = s.nextBuf + 1 + 1 ∨ n = s.nextBuf + 1 + 1 + 1 := by
                      omega
                    rcases h3 with h3 | h3 | h3 | h3 <;> simp [h3]
                  · intro n hn2
                    have hn3 : n ∈ s.freed ++ [s.nextBuf, s.nextBuf + 1,
                        s.nextBuf + 1 + 1, s.nextBuf + 1 + 1 + 1] := hn2
                    rw [List.mem_append] at hn3
                    rcases hn3 with h3 | h3
                    · exact Or.inl h3
                    · right
                      show s.nextBuf ≤ n ∧ n < s.nextBuf + 1 + 1 + 1 + 1
                      fin_cases h3 <;> omega
                · -- success: contradicts the error hypothesis
                  exact absurd h (by simp)

end SJ

namespace SJ

/-- Triangle input data without texture coordinates. -/
def cubeData : GeoData :=
  { primitive := "triangles", positions := [1, 2, 3, 4, 5, 6, 7, 8, 9],
    normals := [1, 0, 0, 0, 1, 0, 0, 0, 1], uv := none, indices := [0, 1, 2] }

/-- Witness for `create_failure_unwinds` at the spec's scenario: creating with
`primitive = "hexagon"` fails with `InvalidGeometryConfig`, leaves the cache
unchanged, and every handle allocated by the call was freed. -/
theorem create_failure_unwinds_witness :
    (createGeometry (fun _ => true) "hex" { cubeData with primitive := "hexagon" }
        emptyActiveState).2 = .error Err.invalidGeometryConfig ∧
    (createGeometry (fun _ => true) "hex" { cubeData with primitive := "hexagon" }
        emptyActiveState).1.geometries = emptyActiveState.geometries ∧
    (∀ n, emptyActiveState.nextBuf ≤ n →
      n < (createGeometry (fun _ => true) "hex"
          { cubeData with primitive := "hexagon" } emptyActiveState).1.nextBuf →
      n ∈ (createGeometry (fun _ => true) "hex"
          { cubeData with primitive := "hexagon" } emptyActiveState).1.freed) := by
  have h := create_failure_unwinds (fun _ => true) "hex"
    { cubeData with primitive := "hexagon" } emptyActiveState
    (createGeometry (fun _ => true) "hex" { cubeData with primitive := "hexagon" }
      emptyActiveState).1
    Err.invalidGeometryConfig (by decide)
  exact ⟨by decide, h.1, h.2.2.2.1⟩

theorem create_ok_spec (gate : Nat → Bool) (ty : String) (data : GeoData)
    (s s2 : State) (gid : String)
    (h : createGeometry gate ty data s = (s2, .ok gid)) :
    ∃ cv geo, s.canvas = some cv ∧ gid = cv.canvasId ++ ":" ++ ty ∧
      geo.geoId = gid ∧ geo.fixed = true ∧ geo.lastUsed = s.time ∧
      s2.geometries = setGeo s.geometries gid (some geo) ∧
      s2.canvas = s.canvas ∧ s2.time = s.time ∧
      s2.currentBoundGeo = s.currentBoundGeo ∧ s2.freed = s.freed ∧
      s2.events = s.events := by
  unfold createGeometry at h
  split at h
  · exact absurd h (by simp)
  · rename_i cv hcv
    split at h
    · exact absurd h (by simp)
    · split at h
      · exact absurd h (by simp)
      · rename_i sv vbuf hv
        obtain ⟨rfl, rfl⟩ := createArrayBuffer_ok gate _ _ _ _ _ hv
        split at h
        · exact absurd h (by simp)
        · rename_i sn nbuf hn
          obtain ⟨rfl, rfl⟩ := createArrayBuffer_ok gate _ _ _ _ _ hn
          split at h
          · exact absurd h (by simp)
          · rename_i st tcb htc
            rcases allocTexCoord_ok gate _ _ _ _ htc with
              ⟨huv, rfl, rfl⟩ | ⟨l, huv, rfl, rfl⟩
            · split at h
              · exact absurd h (by simp)
              · rename_i si ibuf hi
                obtain ⟨rfl, rfl⟩ := createArrayBuffer_ok gate _ _ _ _ _ hi
                split at h
                · exact absurd h (by simp)
                · rename_i prim hp
                  injection h with h1 h2
                  injection h2 with h2
                  subst h2
                  subst h1
                  exact ⟨cv, _, hcv, rfl, rfl, rfl, rfl, rfl, rfl, rfl, rfl,
                    rfl, rfl⟩
            · split at h
              · exact absurd h (by simp)
              · rename_i si ibuf hi
                obtain ⟨rfl, rfl⟩ := createArrayBuffer_ok gate _ _ _ _ _ hi
                split at h
                · exact absurd h (by simp)
                · rename_i prim hp
                  injection h with h1 h2
                  injection h2 with h2
                  subst h2
                  subst h1
                  exact ⟨cv, _, hcv, rfl, rfl, rfl, rfl, rfl, rfl, rfl, rfl,
                    rfl, rfl⟩

theorem count_key_setGeo (gs : List (String × Option Geo)) (k : String)
    (v : Option Geo) (hnd : (gs.map Prod.fst).Nodup) :
    ((setGeo gs k v).map Prod.fst).count k = 1 := by
  rw [keys_setGeo]
  by_cases ha : gs.any (fun p => p.1 = k)
  · rw [if_pos ha]
    obtain ⟨p, hp, hpk⟩ := List.any_eq_true.mp ha
    have hk : k ∈ gs.map Prod.fst :=
      List.mem_map.mpr ⟨p, hp, by simpa using hpk⟩
    exact List.count_eq_one_of_mem hnd hk
  · rw [if_neg ha, List.count_append]
    have hk : k ∉ gs.map Prod.fst := by
      intro hc
      obtain ⟨p, hp, hpk⟩ := List.mem_map.mp hc
      exact absurd (List.any_eq_true.mpr ⟨p, hp, by simp [hpk]⟩) ha
    simp [List.count_eq_zero_of_not_mem hk]

theorem nodup_keys_setGeo (gs : List (String × Option Geo)) (k : String)
    (v : Option Geo) (hnd : (gs.map Prod.fst).Nodup) :
    ((setGeo gs k v).map Prod.fst).Nodup := by
  rw [keys_setGeo]
  by_cases ha : gs.any (fun p => p.1 = k)
  · rw [if_pos ha]
    exact hnd
  · rw [if_neg ha]
    have hk : k ∉ gs.map Prod.fst := by
      intro hc
      obtain ⟨p, hp, hpk⟩ := List.mem_map.mp hc
      exact absurd (List.any_eq_true.mpr ⟨p, hp, by simp [hpk]⟩) ha
    simp [List.nodup_append, hnd, hk]

/-- C2 counterexample: calling `create` a second time for the same
(canvas, type) pair does replace the record — exactly one live entry remains —
but the first record's device buffers (handles 0, 1, 2) are never released:
the freed log is still empty after both calls, so the claim's "old buffers
released first" is false (they leak). -/
theorem create_replace_leaks_buffers :
    (createGeometry (fun _ => true) "cube" cubeData emptyActiveState).2 =
      .ok "c1:cube" ∧
    (createGeometry (fun _ => true) "cube" cubeData
        (createGeometry (fun _ => true) "cube" cubeData emptyActiveState).1).2 =
      .ok "c1:cube" ∧
    (createGeometry (fun _ => true) "cube" cubeData emptyActiveState).1.nextBuf
      = 3 ∧
    ((createGeometry (fun _ => true) "cube" cubeData
        (createGeometry (fun _ => true) "cube" cubeData
          emptyActiveState).1).1.geometries.map Prod.fst).count "c1:cube" = 1 ∧
    (createGeometry (fun _ => true) "cube" cubeData
        (createGeometry (fun _ => true) "cube" cubeData
          emptyActiveState).1).1.freed = [] := by
  decide

/-- C2 amended: calling `create` again for the same (canvas, type) pair
replaces the prior record — afterwards exactly one live record exists for
that pair — but the prior record's device buffers are released at no point:
a successful `create` never frees anything, so the old buffers leak. -/
theorem create_replace_no_release (gate1 gate2 : Nat → Bool) (ty : String)
    (data1 data2 : GeoData) (s s1 s2 : State) (gid1 gid2 : String)
    (hnd : (s.geometries.map Prod.fst).Nodup)
    (h1 : createGeometry gate1 ty data1 s = (s1, .ok gid1))
    (h2 : createGeometry gate2 ty data2 s1 = (s2, .ok gid2)) :
    gid2 = gid1 ∧
    s2.freed = s.freed ∧
    (∃ geo, lookupGeo s2.geometries gid1 = some geo ∧ geo.geoId = gid1) ∧
    ((s2.geometries.map Prod.fst).count gid1 = 1) := by
  obtain ⟨cv, geoA, hcv, hgidA, -, -, -, hg1, hcn1, -, -, hf1, -⟩ :=
    create_ok_spec gate1 ty data1 s s1 gid1 h1
  obtain ⟨cv2, geoB, hcv2, hgidB, hBid, -, -, hg2, -, -, -, hf2, -⟩ :=
    create_ok_spec gate2 ty data2 s1 s2 gid2 h2
  have hcveq : cv2 = cv := by
    rw [hcn1, hcv] at hcv2
    injection hcv2 with h
    exact h.symm
  have hgid : gid2 = gid1 := by
    rw [hgidB, hgidA, hcveq]
  refine ⟨hgid, by rw [hf2, hf1], ?_, ?_⟩
  · refine ⟨geoB, ?_, by rw [hBid, hgid]⟩
    rw [hg2, hgid]
    exact lookupGeo_setGeo_self s1.geometries gid1 geoB
  · rw [hg2, hgid]
    apply count_key_setGeo
    rw [hg1]
    exact nodup_keys_setGeo s.geometries gid1 (some geoA) hnd

/-- Witness for `create_replace_no_release` at a concrete input. -/
theorem create_replace_no_release_witness :
    ((createGeometry (fun _ => true) "cube" cubeData
        (createGeometry (fun _ => true) "cube" cubeData
          emptyActiveState).1).1.freed = emptyActiveState.freed) ∧
    ((createGeometry (fun _ => true) "cube" cubeData
        (createGeometry (fun _ => true) "cube" cubeData
          emptyActiveState).1).1.geometries.map Prod.fst).count "c1:cube" = 1 := by
  have h := create_replace_no_release (fun _ => true) (fun _ => true) "cube"
    cubeData cubeData emptyActiveState
    (createGeometry (fun _ => true) "cube" cubeData emptyActiveState).1
    (createGeometry (fun _ => true) "cube" cubeData
      (createGeometry (fun _ => true) "cube" cubeData emptyActiveState).1).1
    "c1:cube" "c1:cube" (by decide) (by decide) (by decide)
  exact ⟨h.2.1, h.2.2.2⟩

end SJ

namespace SJ

/-- Records eligible for eviction at clock value `e`: surface still in the
DOM and — this is what the scan's strict comparison against the running
minimum, initialized to the current time, enforces — `lastUsed` strictly
below `e`. -/
def evictCandidates (dom : String → Bool) (e : Nat)
    (gs : List (String × Geo)) : List (String × Geo) :=
  gs.filter (fun p => decide (p.2.lastUsed < e ∧ dom p.2.canvas.canvasId = true))

theorem evictScan_no_candidate (dom : String → Bool) :
    ∀ (gs : List (String × Geo)) (e : Nat) (ev : Option (String × Geo)),
    (∀ p ∈ gs, p.1 ≠ "") →
    evictCandidates dom e gs = [] →
    evictScan dom (gs.map (fun p => (p.1, some p.2))) e ev = .ok ev := by
  intro gs
  induction gs with
  | nil => intro e ev _ _; rfl
  | cons p gs ih =>
    intro e ev hk hempty
    obtain ⟨k, g⟩ := p
    have hkne : k ≠ "" := hk (k, g) (by simp)
    have hq : ¬ (g.lastUsed < e ∧ dom g.canvas.canvasId = true) := by
      intro hq
      have : decide (((k, g) : String × Geo).2.lastUsed < e ∧
          dom ((k, g) : String × Geo).2.canvas.canvasId = true) = true :=
        decide_eq_true hq
      rw [evictCandidates, List.filter_cons, this] at hempty
      exact List.cons_ne_nil _ _ hempty
    have hempty2 : evictCandidates dom e gs = [] := by
      rw [evictCandidates, List.filter_cons, decide_eq_false hq] at hempty
      exact hempty
    simp only [List.map_cons, evictScan, hkne, if_false]
    rw [if_neg hq]
    exact ih e ev (fun q hq2 => hk q (by simp [hq2])) hempty2

theorem evictScan_finds_min (dom : String → Bool) :
    ∀ (gs : List (String × Geo)) (e : Nat) (ev : Option (String × Geo)),
    (∀ p ∈ gs, p.1 ≠ "") →
    evictCandidates dom e gs ≠ [] →
    ∃ p, p ∈ evictCandidates dom e gs ∧
      (∀ r ∈ evictCandidates dom e gs, p.2.lastUsed ≤ r.2.lastUsed) ∧
      (evictCandidates dom e gs).find?
        (fun r => decide (r.2.lastUsed ≤ p.2.lastUsed)) = some p ∧
      evictScan dom (gs.map (fun p => (p.1, some p.2))) e ev = .ok (some p) := by
  intro gs
  induction gs with
  | nil => intro e ev _ hne; exact absurd rfl hne
  | cons q gs ih =>
    intro e ev hk hne
    obtain ⟨k, g⟩ := q
    have hkne : k ≠ "" := hk (k, g) (by simp)
    have hktail : ∀ p ∈ gs, p.1 ≠ "" := fun p hp => hk p (by simp [hp])
    by_cases hq : g.lastUsed < e ∧ dom g.canvas.canvasId = true
    · -- the head is itself a candidate and becomes the running minimum
      have hcons : evictCandidates dom e ((k, g) :: gs) =
          (k, g) :: evictCandidates dom e gs := by
        rw [evictCandidates, List.filter_cons, decide_eq_true hq]
        rfl
      have hscan : evictScan dom (((k, g) :: gs).map (fun p => (p.1, some p.2)))
          e ev = evictScan dom (gs.map (fun p => (p.1, some p.2))) g.lastUsed
            (some (k, g)) := by
        simp only [List.map_cons, evictScan, hkne, if_false]
        rw [if_pos hq]
      by_cases hc2 : evictCandidates dom g.lastUsed gs = []
      · -- nothing beats the head: it is the result
        refine ⟨(k, g), by rw [hcons]; simp, ?_, ?_, ?_⟩
        · intro r hr
          rw [hcons] at hr
          rcases List.mem_cons.mp hr with h | h
          · rw [h]
          · have hrm : r ∈ gs ∧ r.2.lastUsed < e ∧
                dom r.2.canvas.canvasId = true := by
              simpa [evictCandidates] using h
            obtain ⟨hrmem, hre, hrdom⟩ := hrm
            have hno : ∀ a ∈ gs, ¬ (a.2.lastUsed < g.lastUsed ∧
                dom a.2.canvas.canvasId = true) := by
              simpa [evictCandidates, List.filter_eq_nil_iff] using hc2
            have hrg : ¬ (r.2.lastUsed < g.lastUsed) :=
              fun hcon => hno r hrmem ⟨hcon, hrdom⟩
            show g.lastUsed ≤ r.2.lastUsed
            omega
        · rw [hcons]
          simp [List.find?_cons]
        · rw [hscan]
          exact evictScan_no_candidate dom gs g.lastUsed (some (k, g)) hktail hc2
      · -- some later record beats the head: recurse with it as accumulator
        obtain ⟨p, hp, hmin, hfind, hsc⟩ := ih g.lastUsed (some (k, g)) hktail hc2
        have hpm : p ∈ gs ∧ p.2.lastUsed < g.lastUsed ∧
            dom p.2.canvas.canvasId = true := by
          simpa [evictCandidates] using hp
        obtain ⟨hpmem, hplt, hpdom⟩ := hpm
        have hpe : p ∈ evictCandidates dom e gs := by
          simp only [evictCandidates, List.mem_filter, decide_eq_true_eq]
          exact ⟨hpmem, Nat.lt_trans hplt hq.1, hpdom⟩
        refine ⟨p, ?_, ?_, ?_, ?_⟩
        · rw [hcons]
          exact List.mem_cons.mpr (Or.inr hpe)
        · intro r hr
          rw [hcons] at hr
          rcases List.mem_cons.mp hr with h | h
          · rw [h]
            exact Nat.le_of_lt hplt
          · have hrm : r ∈ gs ∧ r.2.lastUsed < e ∧
                dom r.2.canvas.canvasId = true := by
              simpa [evictCandidates] using h
            obtain ⟨hrmem, hre, hrdom⟩ := hrm
            by_cases hrg : r.2.lastUsed < g.lastUsed
            · exact hmin r (by
                simp only [evictCandidates, List.mem_filter, decide_eq_true_eq]
                exact ⟨hrmem, hrg, hrdom⟩)
            · omega
        · rw [hcons]
          have hgf : decide (((k, g) : String × Geo).2.lastUsed ≤
              p.2.lastUsed) = false := by
            have : ¬ (g.lastUsed ≤ p.2.lastUsed) := by omega
            exact decide_eq_false this
          simp only [List.find?_cons, hgf]
          have hswap : (fun a : String × Geo =>
              decide (a.2.lastUsed < e ∧ dom a.2.canvas.canvasId = true) &&
                decide (a.2.lastUsed ≤ p.2.lastUsed)) =
              (fun a : String × Geo =>
              decide (a.2.lastUsed < g.lastUsed ∧
                  dom a.2.canvas.canvasId = true) &&
                decide (a.2.lastUsed ≤ p.2.lastUsed)) := by
            funext a
            by_cases hpa : a.2.lastUsed ≤ p.2.lastUsed
            · have h1 : a.2.lastUsed < g.lastUsed := by omega
              have h2 : a.2.lastUsed < e := by
                have := hq.1
                omega
              simp [h1, h2]
            · simp [hpa]
          rw [evictCandidates, find?_filter, hswap, ← find?_filter]
          rw [evictCandidates] at hfind
          exact hfind
        · rw [hscan]
          exact hsc
    · -- the head is not a candidate: it changes nothing
      have hcons : evictCandidates dom e ((k, g) :: gs) =
          evictCandidates dom e gs := by
        rw [evictCandidates, List.filter_cons, decide_eq_false hq]
        rfl
      have hscan : evictScan dom (((k, g) :: gs).map (fun p => (p.1, some p.2)))
          e ev = evictScan dom (gs.map (fun p => (p.1, some p.2))) e ev := by
        simp only [List.map_cons, evictScan, hkne, if_false]
        rw [if_neg hq]
      rw [hcons] at hne
      obtain ⟨p, hp, hmin, hfind, hsc⟩ := ih e ev hktail hne
      refine ⟨p, by rw [hcons]; exact hp, ?_, ?_, ?_⟩
      · intro r hr
        rw [hcons] at hr
        exact hmin r hr
      · rw [hcons]
        exact hfind
      · rw [hscan]
        exact hsc

end SJ

namespace SJ

/-- Backend state whose single record has `lastUsed` equal to the current
logical clock value (e.g. created in the current tick) and a live canvas. -/
def boundaryState : State :=
  { time := 10, canvas := some canvas1,
    geometries := [("c1:cube", some { geoCube with lastUsed := 10 })],
    currentBoundGeo := none, nextBuf := 3, freed := [], events := [] }

/-- C5 counterexample: the evictor reports failure on `boundaryState` even
though the cache is non-empty and the record's surface is alive — the scan
initializes its running minimum to the current time and compares strictly,
so a record with `lastUsed` equal to (or above) the clock never qualifies.
This falsifies "returns false if and only if the cache is empty or every
record's surface is gone" and, with it, the claim that such a record (here
the unique, hence first-encountered, minimum) is destroyed. -/
theorem evictor_clock_boundary_false :
    boundaryState.geometries =
      [("c1:cube", some { geoCube with lastUsed := 10 })] ∧
    domLive geoCube.canvas.canvasId = true ∧
    evictorCallback domLive boundaryState = (boundaryState, .ok false) := by
  decide

/-- C5 amended: one evictor invocation destroys exactly the first-encountered
record holding the minimum `lastUsed` among records whose surface is valid
AND whose `lastUsed` is strictly less than the current clock value, and
returns true; it returns false if and only if no record qualifies — which
happens when the cache is empty, every record's surface is gone, or every
live-surface record has `lastUsed` at or above the clock.  Stated for
well-formed caches (no destroyed `null` placeholders, whose presence makes
the scan throw, and no empty keys). -/
theorem evictor_lru_spec (dom : String → Bool) (s : State)
    (gs : List (String × Geo))
    (hgs : s.geometries = gs.map (fun p => (p.1, some p.2)))
    (hk : ∀ p ∈ gs, p.1 ≠ "") :
    (evictCandidates dom s.time gs = [] →
      evictorCallback dom s = (s, .ok false)) ∧
    (evictCandidates dom s.time gs ≠ [] →
      ∃ p ∈ evictCandidates dom s.time gs,
        (∀ r ∈ evictCandidates dom s.time gs, p.2.lastUsed ≤ r.2.lastUsed) ∧
        (evictCandidates dom s.time gs).find?
          (fun r => decide (r.2.lastUsed ≤ p.2.lastUsed)) = some p ∧
        evictorCallback dom s = (destroyGeometry dom p.2 s, .ok true)) := by
  constructor
  · intro hempty
    unfold evictorCallback
    rw [hgs, evictScan_no_candidate dom gs s.time none hk hempty]
  · intro hne
    obtain ⟨p, hp, hmin, hfind, hscan⟩ :=
      evictScan_finds_min dom gs s.time none hk hne
    refine ⟨p, hp, hmin, hfind, ?_⟩
    unfold evictorCallback
    rw [hgs, hscan]

/-- Record last used at time 10 on `canvas1`, stored under "c1:a". -/
def lruA : Geo :=
  { geoCube with type := "a", geoId := "c1:a", lastUsed := 10 }

/-- Record last used at time 20 on `canvas1`, stored under "c1:b", holding
device buffers 3, 4, 5. -/
def lruB : Geo :=
  { geoCube with
      type := "b", geoId := "c1:b", lastUsed := 20,
      vertexBuf := ⟨3, 9, 3⟩, normalBuf := ⟨4, 9, 3⟩, indexBuf := ⟨5, 3, 1⟩ }

/-- Backend state at clock 21 holding the records last used at 20 and 10 (in
that enumeration order), none of them bound. -/
def lruState : State :=
  { time := 21, canvas := some canvas1,
    geometries := [("c1:b", some lruB), ("c1:a", some lruA)],
    currentBoundGeo := none, nextBuf := 6, freed := [], events := [] }

/-- Witness for `evictor_lru_spec` at the spec's scenario: with two live
non-bound records last used at 10 and 20 and the clock past both, the
evictor removes the one last used at 10 and reports success; on an empty
cache it reports failure. -/
theorem evictor_lru_spec_witness :
    evictorCallback domLive lruState =
      (destroyGeometry domLive lruA lruState, .ok true) ∧
    lookupGeo (evictorCallback domLive lruState).1.geometries "c1:a" = none ∧
    lookupGeo (evictorCallback domLive lruState).1.geometries "c1:b" =
      some lruB ∧
    evictorCallback domLive { lruState with geometries := [] } =
      ({ lruState with geometries := [] }, .ok false) := by
  have h := evictor_lru_spec domLive lruState [("c1:b", lruB), ("c1:a", lruA)]
    rfl (by decide)
  obtain ⟨p, hp, hmin, hfind, heq⟩ := h.2 (by decide)
  have hcand : evictCandidates domLive lruState.time
      [("c1:b", lruB), ("c1:a", lruA)] = [("c1:b", lruB), ("c1:a", lruA)] := by
    decide
  rw [hcand] at hp hmin
  have hpv : p = ("c1:a", lruA) := by
    rcases List.mem_cons.mp hp with hb | hrest
    · exfalso
      have hle := hmin ("c1:a", lruA) (by simp)
      rw [hb] at hle
      exact absurd hle (by decide)
    · simpa using hrest
  rw [hpv] at heq
  refine ⟨heq, by rw [heq]; decide, by rw [heq]; decide, ?_⟩
  have h2 := evictor_lru_spec domLive { lruState with geometries := [] } []
    rfl (by simp)
  exact h2.1 (by decide)

end SJ
